import Mathlib

/-!
# Shallow embedding of `src/srsenb/src/empoweragent.cc`

The Empower agent (`Empower::Agent::Agent`) runs a single-threaded main
loop that keeps a TCP session to a controller, sends periodic HELLO
requests while idle, and answers CAPABILITIES requests.  This file embeds
that code in Lean: the agent's private state (`Agent.PrivateBits`) and the
pure computation of each loop iteration, with the external transport
(`IO io` of the C++ code) modelled as an oracle supplying the results of
its calls (`IterEnv`) and the calls the agent makes recorded as events.

External collaborators (the `empoweragentproto` codec and the `IO`
transport class) are not part of the repository source; only the values
the agent reads from them matter here, so they are modelled at their
interface boundary following the spec.
-/

namespace Empower

/-- Modelled from the spec: the wire codec's message classes live in the
`empoweragentproto` library, which is not under `src/`.  The spec names
`request-set` and `response-success` and says other request/response
classes exist and are handled generically.  `isRequest`/`isResponse`
classify them. -/
inductive MessageClass where
  | REQUEST_SET
  | REQUEST_GET
  | RESPONSE_SUCCESS
  | RESPONSE_FAILURE
  deriving DecidableEq, Repr

/-- Whether a message class is a request class (spec: `request-set`, ...). -/
def MessageClass.isRequest : MessageClass → Bool
  | .REQUEST_SET => true
  | .REQUEST_GET => true
  | _ => false

/-- Whether a message class is a response class. -/
def MessageClass.isResponse : MessageClass → Bool
  | .RESPONSE_SUCCESS => true
  | .RESPONSE_FAILURE => true
  | _ => false

/-- Modelled from the spec: entity classes of the `empoweragentproto`
library (not under `src/`).  The code names `HELLO_SERVICE` and
`CAPABILITIES_SERVICE`; the spec says the set is extensible, so every
other entity class is represented by a numeric tag. -/
inductive EntityClass where
  | HELLO_SERVICE
  | CAPABILITIES_SERVICE
  | OTHER (tag : Nat)
  deriving DecidableEq, Repr

/-- Header fields the agent reads or writes (`CommonHeaderEncoder` /
`MessageDecoder::header()`): sequence, element id, message class, entity
class.  Exact byte layout belongs to the codec and is out of scope. -/
structure Header where
  sequence : Nat
  elementId : Nat
  messageClass : MessageClass
  entityClass : EntityClass
  deriving DecidableEq, Repr

/-- TLVs the agent builds (`TLVCell`, `TLVPeriodicityMs`); contents are
the field values the agent sets, the byte encoding being the codec's. -/
inductive TLV where
  | cell (pci : Nat) (nPrb : Nat) (dlEarfcn : Nat) (ulEarfcn : Nat)
  | periodicityMs (milliseconds : Nat)
  deriving DecidableEq, Repr

/-- A fully built outgoing message: header plus TLVs, as assembled by
`MessageEncoder` before `io.writeMessage`. -/
structure Message where
  header : Header
  tlvs : List TLV
  deriving DecidableEq, Repr

/-- A decoded inbound message as seen through `MessageDecoder` when
`isFailure()` is false: the agent only ever inspects the header (the
switch reads `header().entityClass()`). -/
structure DecodedMessage where
  header : Header
  deriving DecidableEq, Repr

namespace Agent

/-- `Agent::PrivateBits` (empoweragent.cc lines 14-51): the configuration
copied in by `init` plus the outgoing sequence counter.  All integer
fields are machine unsigned integers in the C++; the sequence counter is
`std::uint32_t`, which matters for wraparound, so its updates are taken
modulo `2^32`. -/
structure PrivateBits where
  controllerAddress : Nat
  controllerPort : Nat
  delayms : Nat
  pci : Nat
  dlEarfcn : Nat
  ulEarfcn : Nat
  nPrb : Nat
  enbId : Nat
  sequence : Nat
  deriving DecidableEq, Repr

/-- The fields of `srsenb::all_args_t` the agent reads in `init`.
`controller_addr` is the result of parsing the configured address string
with `NetworkLib::IPv4Address(...)`, whose constructor throws on a
malformed address: `none` models that parse failure, `some a` the parsed
address.  The other fields are plain unsigned integers whose copies
cannot fail. -/
structure AllArgs where
  controller_addr : Option Nat
  controller_port : Nat
  delayms : Nat
  pci : Nat
  dl_earfcn : Nat
  ul_earfcn : Nat
  n_prb : Nat
  enb_id : Nat
  deriving DecidableEq, Repr

/-- `Agent::init` (empoweragent.cc lines 60-94).  Copies the
configuration into the private bits and sets the sequence counter to 1.
The C++ returns `true` when the `try` block threw (the exception is
caught and converted) and `false` on success; we return that boolean
together with the resulting private bits (`none` when initialization
failed). -/
def init (args : AllArgs) : Bool × Option PrivateBits :=
  match args.controller_addr with
  | none => (true, none)
  | some addr =>
      (false, some {
        controllerAddress := addr
        controllerPort := args.controller_port
        delayms := args.delayms
        pci := args.pci
        dlEarfcn := args.dl_earfcn
        ulEarfcn := args.ul_earfcn
        nPrb := args.n_prb
        enbId := args.enb_id
        sequence := 1 })

/-- `Agent::fillHeader` (empoweragent.cc lines 264-270): stamps the
current sequence value and the element id (the 32-bit `enbId` widened to
64 bits, value preserved) into the header, then increments the 32-bit
sequence counter. -/
def fillHeader (bits : PrivateBits) (h : Header) : Header × PrivateBits :=
  ({ h with sequence := bits.sequence, elementId := bits.enbId },
   { bits with sequence := (bits.sequence + 1) % 2 ^ 32 })

/-- A default-valued header as produced by `MessageEncoder`'s fresh
`header()` before the agent sets any field. -/
def emptyHeader : Header :=
  { sequence := 0, elementId := 0, messageClass := .REQUEST_SET,
    entityClass := .HELLO_SERVICE }

/-- The dispatch `switch` of `Agent::mainLoop` (empoweragent.cc lines
178-218), applied to a successfully decoded message.  It switches on the
header's entity class only:
* `HELLO_SERVICE`: the reply is logged and discarded, nothing is sent;
* `CAPABILITIES_SERVICE`: build a `RESPONSE_SUCCESS` /
  `CAPABILITIES_SERVICE` message, header stamped via `fillHeader`, with
  one cell TLV taken from the configured pci/nPrb/dlEarfcn/ulEarfcn, and
  send it;
* anything else: logged as unexpected, nothing sent.
Returns the updated private bits and the messages written (in order). -/
def dispatchMessage (bits : PrivateBits) (msg : DecodedMessage) :
    PrivateBits × List Message :=
  match msg.header.entityClass with
  | .HELLO_SERVICE => (bits, [])
  | .CAPABILITIES_SERVICE =>
      let hb := fillHeader bits emptyHeader
      let hdr := { hb.1 with messageClass := .RESPONSE_SUCCESS,
                             entityClass := .CAPABILITIES_SERVICE }
      (hb.2,
       [{ header := hdr,
          tlvs := [TLV.cell bits.pci bits.nPrb bits.dlEarfcn bits.ulEarfcn] }])
  | .OTHER _ => (bits, [])

/-- The `IO` object's configuration as set at the top of `Agent::mainLoop`
(empoweragent.cc line 130): `io.address(...).port(...).delay(...)`.  It is
set once before the loop and never changed, and `io.delay()` reads back
the stored delay. -/
structure IOConfig where
  address : Nat
  port : Nat
  delay : Nat
  deriving DecidableEq, Repr

/-- `io.address(a).port(p).delay(d)` with the agent's configured values. -/
def transportSetup (bits : PrivateBits) : IOConfig :=
  { address := bits.controllerAddress, port := bits.controllerPort,
    delay := bits.delayms }

/-- What `io.readMessage` plus `MessageDecoder` yield for one read:
the buffer was empty, the decoder reported failure (`isFailure()`), or a
message was decoded. -/
inductive ReadOutcome where
  | emptyBuffer
  | decodeFailure
  | decoded (msg : DecodedMessage)
  deriving DecidableEq, Repr

/-- The transport-side oracle for one loop iteration: the values the `IO`
object returns at each call site of the iteration, in program order.
`closed1` is `io.isConnectionClosed()` at line 143, `closed2` the re-test
at line 149 (reflecting whether an `openSocket` attempt succeeded),
`dataAvailable` is `io.isDataAvailable()` at line 157 (consulted only when
the connection is open), `readResult` the outcome of `io.readMessage` plus
decoding (consulted only when data is available), and `closed3` is
`io.isConnectionClosed()` in the periodic branch at line 228 (the value
logged at line 226 is discarded and not modelled separately). -/
structure IterEnv where
  closed1 : Bool
  closed2 : Bool
  dataAvailable : Bool
  readResult : ReadOutcome
  closed3 : Bool
  deriving DecidableEq, Repr

/-- The calls the agent makes on the transport during one iteration, in
order; status-query calls (`isConnectionClosed`, `isDataAvailable`,
`delay`) and logging are pure observations and are not recorded. -/
inductive Event where
  | openSocket
  | sleep
  | readMessage
  | writeMessage (msg : Message)
  deriving DecidableEq, Repr

/-- Result of one iteration of the `for (;;)` loop: updated private bits,
the transport calls made, and the final value of the iteration's
`performPeriodicTasks` flag. -/
structure IterResult where
  bits : PrivateBits
  events : List Event
  periodic : Bool
  deriving DecidableEq, Repr

/-- The periodic-tasks branch of `Agent::mainLoop` (empoweragent.cc lines
221-251): when the connection is open (`closed3` false), build a HELLO
request — header stamped via `fillHeader`, message class `REQUEST_SET`,
entity class `HELLO_SERVICE`, one periodicity TLV carrying `io.delay()` —
and send it; when closed, send nothing. -/
def periodicTasks (cfg : IOConfig) (bits : PrivateBits) (closed3 : Bool) :
    PrivateBits × List Event :=
  if closed3 then (bits, [])
  else
    let tlvPeriodicity := TLV.periodicityMs cfg.delay
    let hb := fillHeader bits emptyHeader
    let hdr := { hb.1 with messageClass := .REQUEST_SET,
                           entityClass := .HELLO_SERVICE }
    (hb.2, [Event.writeMessage { header := hdr, tlvs := [tlvPeriodicity] }])

/-- One iteration of the `for (;;)` loop of `Agent::mainLoop`
(empoweragent.cc lines 138-257).  `performPeriodicTasks` and
`dataIsAvailable` start false; if the connection is closed the agent
tries `openSocket()`; if still closed it sleeps and marks the periodic
flag, otherwise it polls for data and marks the flag only on timeout;
then either the read/dispatch branch or the periodic branch runs. -/
def loopIteration (cfg : IOConfig) (bits : PrivateBits) (env : IterEnv) :
    IterResult :=
  let ev1 : List Event := if env.closed1 then [Event.openSocket] else []
  if env.closed2 then
    -- connection still closed: sleep, then the periodic branch runs
    -- (dataIsAvailable is false).
    let pt := periodicTasks cfg bits env.closed3
    { bits := pt.1, events := ev1 ++ [Event.sleep] ++ pt.2, periodic := true }
  else
    if env.dataAvailable then
      -- read a message and dispatch on it
      match env.readResult with
      | .emptyBuffer =>
          { bits := bits, events := ev1 ++ [Event.readMessage],
            periodic := false }
      | .decodeFailure =>
          { bits := bits, events := ev1 ++ [Event.readMessage],
            periodic := false }
      | .decoded msg =>
          let d := dispatchMessage bits msg
          { bits := d.1,
            events := ev1 ++ [Event.readMessage]
              ++ d.2.map Event.writeMessage,
            periodic := false }
    else
      -- timeout expired: periodic branch
      let pt := periodicTasks cfg bits env.closed3
      { bits := pt.1, events := ev1 ++ pt.2, periodic := true }

/-- Runs the main loop for one transport oracle value per iteration,
accumulating the events of all iterations in order.  (The real loop is
infinite; a list of oracle values gives its first `envs.length`
iterations.) -/
def runLoop (cfg : IOConfig) (bits : PrivateBits) (envs : List IterEnv) :
    PrivateBits × List Event :=
  match envs with
  | [] => (bits, [])
  | env :: rest =>
      let r := loopIteration cfg bits env
      let rr := runLoop cfg r.bits rest
      (rr.1, r.events ++ rr.2)

/-- The messages written during a list of events, in write order. -/
def writtenMessages (events : List Event) : List Message :=
  events.filterMap fun e =>
    match e with
    | .writeMessage m => some m
    | _ => none

/-- The (sequence, elementId) pairs stamped on the written messages, in
write order. -/
def stampedHeaders (events : List Event) : List (Nat × Nat) :=
  (writtenMessages events).map fun m => (m.header.sequence, m.header.elementId)

/-- Modelled from the spec: the host application that calls `init` and
`start` (srsenb's main, not under `src/`) starts the agent only when
`init` reported success; on a `true` (failure) return the agent is not
started.  Returns the private bits of the started agent, or `none` when
the agent does not start. -/
def hostStartAgent (args : AllArgs) : Option PrivateBits :=
  match init args with
  | (true, _) => none
  | (false, b) => b

/-- Example configuration used by witnesses (values from the spec's §8
scenario: delay 2000 ms, pci 5, nPrb 25, dl 1850, ul 19850). -/
def exArgs : AllArgs :=
  { controller_addr := some 0, controller_port := 4433, delayms := 2000,
    pci := 5, dl_earfcn := 1850, ul_earfcn := 19850, n_prb := 25,
    enb_id := 778 }

/-- The private bits `init exArgs` produces. -/
def exBits : PrivateBits :=
  { controllerAddress := 0, controllerPort := 4433, delayms := 2000,
    pci := 5, dlEarfcn := 1850, ulEarfcn := 19850, nPrb := 25,
    enbId := 778, sequence := 1 }

/-- An iteration in which the connection is open throughout and the read
poll times out: an idle tick while connected. -/
def exIdleEnv : IterEnv :=
  { closed1 := false, closed2 := false, dataAvailable := false,
    readResult := .emptyBuffer, closed3 := false }

/-- An iteration in which the transport reports closed at every check. -/
def exClosedEnv : IterEnv :=
  { closed1 := true, closed2 := true, dataAvailable := false,
    readResult := .emptyBuffer, closed3 := true }

/-- An inbound capability-advertisement request. -/
def exCapsRequest : DecodedMessage :=
  { header := { sequence := 9, elementId := 1,
                messageClass := .REQUEST_SET,
                entityClass := .CAPABILITIES_SERVICE } }

/-- An inbound message whose pair is (response-success,
capability-advertisement): a response-class message on the capabilities
entity. -/
def exCapsResponse : DecodedMessage :=
  { header := { sequence := 9, elementId := 1,
                messageClass := .RESPONSE_SUCCESS,
                entityClass := .CAPABILITIES_SERVICE } }

/-- An inbound message of an entity class the agent does not know. -/
def exUnknownMsg : DecodedMessage :=
  { header := { sequence := 9, elementId := 1,
                messageClass := .REQUEST_SET,
                entityClass := .OTHER 7 } }

/-- An iteration whose first closed-check is true, whose `openSocket`
attempt succeeds (second check reports open) and for which inbound data
is immediately available. -/
def exReconnectDataEnv : IterEnv :=
  { closed1 := true, closed2 := false, dataAvailable := true,
    readResult := .decodeFailure, closed3 := false }

/-- `stampedHeaders` distributes over event-list concatenation. -/
theorem stampedHeaders_append (a b : List Event) :
    stampedHeaders (a ++ b) = stampedHeaders a ++ stampedHeaders b := by
  simp [stampedHeaders, writtenMessages]

/-- Each loop iteration either writes no message and leaves the private
bits untouched, or writes exactly one message stamped with the current
sequence value and the configured element id and advances the 32-bit
sequence counter by one; no other field changes. -/
theorem iter_stamped_cases (cfg : IOConfig) (bits : PrivateBits)
    (env : IterEnv) :
    (stampedHeaders (loopIteration cfg bits env).events = []
       ∧ (loopIteration cfg bits env).bits = bits) ∨
    (stampedHeaders (loopIteration cfg bits env).events
         = [(bits.sequence, bits.enbId)]
       ∧ (loopIteration cfg bits env).bits
         = { bits with sequence := (bits.sequence + 1) % 2 ^ 32 }) := by
  rcases env with ⟨c1, c2, da, rr, c3⟩
  cases c2 with
  | true =>
    -- still closed after the open attempt: sleep, then the periodic branch
    cases c3 with
    | true =>
      left
      cases c1 <;> constructor <;>
        simp [loopIteration, periodicTasks, stampedHeaders, writtenMessages]
    | false =>
      right
      cases c1 <;> constructor <;>
        simp [loopIteration, periodicTasks, fillHeader, stampedHeaders,
              writtenMessages]
  | false =>
    cases da with
    | false =>
      -- timeout: the periodic branch
      cases c3 with
      | true =>
        left
        cases c1 <;> constructor <;>
          simp [loopIteration, periodicTasks, stampedHeaders, writtenMessages]
      | false =>
        right
        cases c1 <;> constructor <;>
          simp [loopIteration, periodicTasks, fillHeader, stampedHeaders,
                writtenMessages]
    | true =>
      -- the read/dispatch branch
      rcases rr with _ | _ | msg
      · left
        cases c1 <;> constructor <;>
          simp [loopIteration, stampedHeaders, writtenMessages]
      · left
        cases c1 <;> constructor <;>
          simp [loopIteration, stampedHeaders, writtenMessages]
      · rcases msg with ⟨⟨s, eid, mc, ec⟩⟩
        rcases ec with _ | _ | tag
        · left
          cases c1 <;> constructor <;>
            simp [loopIteration, dispatchMessage, stampedHeaders,
                  writtenMessages]
        · right
          cases c1 <;> constructor <;>
            simp [loopIteration, dispatchMessage, fillHeader, stampedHeaders,
                  writtenMessages]
        · left
          cases c1 <;> constructor <;>
            simp [loopIteration, dispatchMessage, stampedHeaders,
                  writtenMessages]

/-- Sequence-number formula for a whole run: starting from a 32-bit
counter value, the `k`-th written message (0-based, in write order) is
stamped with sequence `(sequence₀ + k) % 2^32` and with the configured
element id. -/
theorem run_stamped_get (cfg : IOConfig) :
    ∀ (envs : List IterEnv) (bits : PrivateBits),
      bits.sequence < 2 ^ 32 →
      ∀ (k : Nat) (hk : k < (stampedHeaders (runLoop cfg bits envs).2).length),
        (stampedHeaders (runLoop cfg bits envs).2).get ⟨k, hk⟩
          = ((bits.sequence + k) % 2 ^ 32, bits.enbId) := by
  intro envs
  induction envs with
  | nil =>
    intro bits _ k hk
    simp [runLoop, stampedHeaders, writtenMessages] at hk
  | cons env rest ih =>
    intro bits hseq k hk
    have hsplit :
        stampedHeaders (runLoop cfg bits (env :: rest)).2
          = stampedHeaders (loopIteration cfg bits env).events
            ++ stampedHeaders
                 (runLoop cfg (loopIteration cfg bits env).bits rest).2 := by
      simp only [runLoop]
      exact stampedHeaders_append _ _
    rcases iter_stamped_cases cfg bits env with ⟨h1, h2⟩ | ⟨h1, h2⟩
    · -- no message this iteration, state unchanged
      have heq :
          stampedHeaders (runLoop cfg bits (env :: rest)).2
            = stampedHeaders (runLoop cfg bits rest).2 := by
        rw [hsplit, h1, h2]
        simp
      rw [List.get_of_eq heq]
      exact ih bits hseq k _
    · -- exactly one message, stamped (sequence, enbId), counter advanced
      have heq :
          stampedHeaders (runLoop cfg bits (env :: rest)).2
            = (bits.sequence, bits.enbId)
              :: stampedHeaders
                   (runLoop cfg
                     { bits with sequence := (bits.sequence + 1) % 2 ^ 32 }
                     rest).2 := by
        rw [hsplit, h1, h2]
        simp
      have hlt : (bits.sequence + 1) % 2 ^ 32 < 2 ^ 32 :=
        Nat.mod_lt _ (by norm_num)
      cases k with
      | zero =>
        have h0 : (0 : Nat) <
            ((bits.sequence, bits.enbId)
              :: stampedHeaders
                   (runLoop cfg
                     { bits with sequence := (bits.sequence + 1) % 2 ^ 32 }
                     rest).2).length := by
          simp
        calc (stampedHeaders (runLoop cfg bits (env :: rest)).2).get ⟨0, hk⟩
            = ((bits.sequence, bits.enbId)
                :: stampedHeaders
                     (runLoop cfg
                       { bits with sequence := (bits.sequence + 1) % 2 ^ 32 }
                       rest).2).get ⟨0, h0⟩ := List.get_of_eq heq _
          _ = (bits.sequence, bits.enbId) := rfl
          _ = ((bits.sequence + 0) % 2 ^ 32, bits.enbId) := by
                congr 1
                omega
      | succ k' =>
        have hk1 : Nat.succ k' <
            ((bits.sequence, bits.enbId)
              :: stampedHeaders
                   (runLoop cfg
                     { bits with sequence := (bits.sequence + 1) % 2 ^ 32 }
                     rest).2).length := heq ▸ hk
        have hk' : k' <
            (stampedHeaders
              (runLoop cfg
                { bits with sequence := (bits.sequence + 1) % 2 ^ 32 }
                rest).2).length := Nat.lt_of_succ_lt_succ (by simpa using hk1)
        calc (stampedHeaders (runLoop cfg bits (env :: rest)).2).get
                ⟨Nat.succ k', hk⟩
            = ((bits.sequence, bits.enbId)
                :: stampedHeaders
                     (runLoop cfg
                       { bits with sequence := (bits.sequence + 1) % 2 ^ 32 }
                       rest).2).get ⟨Nat.succ k', hk1⟩ := List.get_of_eq heq _
          _ = (stampedHeaders
                (runLoop cfg
                  { bits with sequence := (bits.sequence + 1) % 2 ^ 32 }
                  rest).2).get ⟨k', hk'⟩ := rfl
          _ = (((bits.sequence + 1) % 2 ^ 32 + k') % 2 ^ 32, bits.enbId) :=
                ih _ hlt k' hk'
          _ = ((bits.sequence + Nat.succ k') % 2 ^ 32, bits.enbId) := by
                congr 1
                omega

/-- A connected idle tick writes exactly one message, so `n` consecutive
idle ticks write `n` messages. -/
theorem run_replicate_idle_length (cfg : IOConfig) :
    ∀ (n : Nat) (bits : PrivateBits),
      (stampedHeaders
        (runLoop cfg bits (List.replicate n exIdleEnv)).2).length = n := by
  intro n
  induction n with
  | zero =>
    intro bits
    simp [runLoop, stampedHeaders, writtenMessages]
  | succ n ih =>
    intro bits
    rw [List.replicate_succ]
    simp only [runLoop]
    rw [stampedHeaders_append]
    have h1 : stampedHeaders (loopIteration cfg bits exIdleEnv).events
        = [(bits.sequence, bits.enbId)] := by
      simp [loopIteration, exIdleEnv, periodicTasks, fillHeader,
            stampedHeaders, writtenMessages]
    rw [h1]
    simp [ih]

/-- C1 (amended): starting from a freshly initialized agent (sequence
counter 1), the `k`-th outgoing message of any run (0-based, in send
order) is stamped with sequence `(1 + k) % 2^32` — the stamps increase by
exactly 1 from 1 until the 32-bit counter wraps around to 0 — and its
element id always equals the configured base-station identifier. -/
theorem outgoing_stamps_from_init (args : AllArgs) (bits : PrivateBits)
    (envs : List IterEnv) (k : Nat)
    (hinit : (init args).2 = some bits)
    (hk : k < (stampedHeaders (runLoop (transportSetup bits) bits envs).2).length) :
    (stampedHeaders (runLoop (transportSetup bits) bits envs).2).get ⟨k, hk⟩
      = ((1 + k) % 2 ^ 32, args.enb_id) := by
  have hbits : bits.sequence = 1 ∧ bits.enbId = args.enb_id := by
    cases h : args.controller_addr with
    | none => simp [init, h] at hinit
    | some a =>
      simp only [init, h] at hinit
      rw [Option.some_inj] at hinit
      constructor <;> rw [← hinit]
  rw [run_stamped_get (transportSetup bits) envs bits (by rw [hbits.1]; norm_num) k hk,
      hbits.1, hbits.2]

/-- C1 (counterexample to the claim as stated): from a fresh agent, after
`2^32` connected idle ticks the stamp of message index `2^32 - 2` is
`2^32 - 1` while the next message (index `2^32 - 1`) is stamped `0`: the
32-bit counter wraps, so the stamped sequence numbers are not strictly
increasing by exactly 1 over the whole run. -/
theorem sequence_stamp_wraps_to_zero :
    (stampedHeaders (runLoop (transportSetup exBits) exBits
        (List.replicate (2 ^ 32) exIdleEnv)).2).length = 2 ^ 32 ∧
    (stampedHeaders (runLoop (transportSetup exBits) exBits
        (List.replicate (2 ^ 32) exIdleEnv)).2)[2 ^ 32 - 2]?
      = some (2 ^ 32 - 1, 778) ∧
    (stampedHeaders (runLoop (transportSetup exBits) exBits
        (List.replicate (2 ^ 32) exIdleEnv)).2)[2 ^ 32 - 1]?
      = some (0, 778) := by
  have hlen := run_replicate_idle_length (transportSetup exBits) (2 ^ 32) exBits
  have hseq : exBits.sequence < 2 ^ 32 := by norm_num [exBits]
  refine ⟨hlen, ?_, ?_⟩
  · have hk : 2 ^ 32 - 2 < (stampedHeaders (runLoop (transportSetup exBits) exBits
        (List.replicate (2 ^ 32) exIdleEnv)).2).length := by
      rw [hlen]; norm_num
    rw [List.getElem?_eq_getElem hk]
    exact congrArg some
      ((run_stamped_get (transportSetup exBits) _ exBits hseq _ hk).trans
        (by norm_num [exBits]))
  · have hk : 2 ^ 32 - 1 < (stampedHeaders (runLoop (transportSetup exBits) exBits
        (List.replicate (2 ^ 32) exIdleEnv)).2).length := by
      rw [hlen]; norm_num
    rw [List.getElem?_eq_getElem hk]
    exact congrArg some
      ((run_stamped_get (transportSetup exBits) _ exBits hseq _ hk).trans
        (by norm_num [exBits]))

/-- C1 witness: three connected idle ticks from a fresh agent; the third
message (index 2) is stamped with sequence 3 and element id 778. -/
theorem outgoing_stamps_from_init_witness :
    (stampedHeaders (runLoop (transportSetup exBits) exBits
        [exIdleEnv, exIdleEnv, exIdleEnv]).2).get ⟨2, by decide⟩
      = ((1 + 2) % 2 ^ 32, 778) :=
  outgoing_stamps_from_init exArgs exBits [exIdleEnv, exIdleEnv, exIdleEnv] 2
    rfl (by decide)

/-- `writtenMessages` distributes over event-list concatenation. -/
theorem writtenMessages_append (a b : List Event) :
    writtenMessages (a ++ b) = writtenMessages a ++ writtenMessages b := by
  simp [writtenMessages]

/-- C2: a decoded inbound message of request class on the
capability-advertisement entity makes dispatch produce exactly one
outgoing message: response-success, same entity class, carrying one cell
TLV with the configured (pci, nPrb, dlEarfcn, ulEarfcn) tuple. -/
theorem caps_request_single_success_response (bits : PrivateBits)
    (msg : DecodedMessage)
    (_hreq : msg.header.messageClass.isRequest = true)
    (hec : msg.header.entityClass = EntityClass.CAPABILITIES_SERVICE) :
    dispatchMessage bits msg
      = ({ bits with sequence := (bits.sequence + 1) % 2 ^ 32 },
         [{ header := { sequence := bits.sequence, elementId := bits.enbId,
                        messageClass := MessageClass.RESPONSE_SUCCESS,
                        entityClass := EntityClass.CAPABILITIES_SERVICE },
            tlvs := [TLV.cell bits.pci bits.nPrb bits.dlEarfcn
                       bits.ulEarfcn] }]) := by
  simp [dispatchMessage, hec, fillHeader, emptyHeader]

/-- C2 witness: the concrete capabilities request against the example
configuration yields the single success response with TLV
(5, 25, 1850, 19850). -/
theorem caps_request_single_success_response_witness :
    dispatchMessage exBits exCapsRequest
      = ({ exBits with sequence := (exBits.sequence + 1) % 2 ^ 32 },
         [{ header := { sequence := exBits.sequence,
                        elementId := exBits.enbId,
                        messageClass := MessageClass.RESPONSE_SUCCESS,
                        entityClass := EntityClass.CAPABILITIES_SERVICE },
            tlvs := [TLV.cell exBits.pci exBits.nPrb exBits.dlEarfcn
                       exBits.ulEarfcn] }]) :=
  caps_request_single_success_response exBits exCapsRequest rfl rfl

/-- C3: an idle tick while the connection is open (open at the re-test,
read poll timed out, still open in the periodic branch) produces exactly
one outgoing message: a `REQUEST_SET` / `HELLO_SERVICE` request carrying
one periodicity TLV whose payload is the delay read back from the live
`IO` configuration (`io.delay()`), which `mainLoop` set to the configured
`delayms`; this holds for every such tick with no suppression. -/
theorem idle_tick_connected_sends_one_hello (bits : PrivateBits)
    (env : IterEnv) (h2 : env.closed2 = false)
    (hd : env.dataAvailable = false) (h3 : env.closed3 = false) :
    (loopIteration (transportSetup bits) bits env).periodic = true ∧
    writtenMessages (loopIteration (transportSetup bits) bits env).events
      = [{ header := { sequence := bits.sequence, elementId := bits.enbId,
                       messageClass := MessageClass.REQUEST_SET,
                       entityClass := EntityClass.HELLO_SERVICE },
           tlvs := [TLV.periodicityMs bits.delayms] }] := by
  constructor
  · simp [loopIteration, h2, hd]
  · cases hc1 : env.closed1 <;>
      simp [loopIteration, periodicTasks, h2, hd, h3, hc1, fillHeader,
            emptyHeader, writtenMessages, transportSetup]

/-- C3 witness: the example idle tick sends exactly the HELLO request
with periodicity 2000 ms. -/
theorem idle_tick_connected_sends_one_hello_witness :
    (loopIteration (transportSetup exBits) exBits exIdleEnv).periodic = true ∧
    writtenMessages (loopIteration (transportSetup exBits) exBits exIdleEnv).events
      = [{ header := { sequence := exBits.sequence,
                       elementId := exBits.enbId,
                       messageClass := MessageClass.REQUEST_SET,
                       entityClass := EntityClass.HELLO_SERVICE },
           tlvs := [TLV.periodicityMs exBits.delayms] }] :=
  idle_tick_connected_sends_one_hello exBits exIdleEnv rfl rfl rfl

/-- C4 (counterexample to the claim as stated): the pair
(response-success, capability-advertisement) is neither (response class,
keep-alive) nor (request class, capability-advertisement), yet dispatch
does send a reply and does advance the sequence counter — the switch keys
on the entity class only, ignoring the message class. -/
theorem dispatch_replies_to_caps_response_class :
    exCapsResponse.header.entityClass ≠ EntityClass.HELLO_SERVICE ∧
    exCapsResponse.header.messageClass.isRequest = false ∧
    (dispatchMessage exBits exCapsResponse).2.length = 1 ∧
    exBits.sequence = 1 ∧
    (dispatchMessage exBits exCapsResponse).1.sequence = 2 := by
  decide

/-- C4 (amended): dispatch is keyed by the entity class alone, the
message class being ignored; every decoded message whose entity class is
neither keep-alive/session nor capability-advertisement is treated as
unexpected: logged, no reply sent, no agent state mutated. -/
theorem dispatch_unknown_entity_no_reply_no_mutation (bits : PrivateBits)
    (msg : DecodedMessage)
    (h1 : msg.header.entityClass ≠ EntityClass.HELLO_SERVICE)
    (h2 : msg.header.entityClass ≠ EntityClass.CAPABILITIES_SERVICE) :
    dispatchMessage bits msg = (bits, []) := by
  rcases hec : msg.header.entityClass with _ | _ | tag
  · exact absurd hec h1
  · exact absurd hec h2
  · simp [dispatchMessage, hec]

/-- C4 witness: a message of an unknown entity class is discarded with no
reply and unchanged state. -/
theorem dispatch_unknown_entity_no_reply_no_mutation_witness :
    dispatchMessage exBits exUnknownMsg = (exBits, []) :=
  dispatch_unknown_entity_no_reply_no_mutation exBits exUnknownMsg
    (by decide) (by decide)

/-- C5 (counterexample to the claim as stated): an iteration whose first
check reports the connection closed but whose `openSocket` attempt
succeeds (and data is then available) neither sleeps nor becomes a
periodic/idle tick — the pause after a connect attempt is conditional on
the connection still being closed at the re-test. -/
theorem successful_reconnect_skips_sleep :
    exReconnectDataEnv.closed1 = true ∧
    Event.sleep ∉
      (loopIteration (transportSetup exBits) exBits exReconnectDataEnv).events ∧
    (loopIteration (transportSetup exBits) exBits exReconnectDataEnv).periodic
      = false := by
  decide

/-- C5 (amended): in an iteration whose first check reports the
connection closed, the agent attempts `openSocket`; if the re-test still
reports closed, it sleeps for the configured delay and the iteration is a
periodic/idle tick; if the attempt succeeded, `sleep` is not called and
the iteration is an idle tick only when the read poll times out. -/
theorem initially_closed_iteration (cfg : IOConfig) (bits : PrivateBits)
    (env : IterEnv) (hc1 : env.closed1 = true) :
    (env.closed2 = true →
      (loopIteration cfg bits env).events
          = Event.openSocket :: Event.sleep
              :: (periodicTasks cfg bits env.closed3).2
        ∧ (loopIteration cfg bits env).periodic = true) ∧
    (env.closed2 = false →
      Event.sleep ∉ (loopIteration cfg bits env).events ∧
      (loopIteration cfg bits env).periodic = !env.dataAvailable) := by
  constructor
  · intro hc2
    constructor
    · simp [loopIteration, hc1, hc2]
    · simp [loopIteration, hc2]
  · intro hc2
    cases hda : env.dataAvailable with
    | false =>
      constructor
      · cases hc3 : env.closed3 <;>
          simp [loopIteration, periodicTasks, hc1, hc2, hda, hc3]
      · simp [loopIteration, hc2, hda]
    | true =>
      constructor
      · rcases hrr : env.readResult with _ | _ | msg <;>
          simp [loopIteration, hc1, hc2, hda, hrr]
      · rcases hrr : env.readResult with _ | _ | msg <;>
          simp [loopIteration, hc2, hda, hrr]

/-- C5 witness: with the transport closed at every check, the iteration's
calls are exactly `openSocket` then `sleep` (the periodic branch sending
nothing), and the iteration is a periodic tick. -/
theorem initially_closed_iteration_witness :
    (loopIteration (transportSetup exBits) exBits exClosedEnv).events
        = Event.openSocket :: Event.sleep
            :: (periodicTasks (transportSetup exBits) exBits exClosedEnv.closed3).2
      ∧ (loopIteration (transportSetup exBits) exBits exClosedEnv).periodic
        = true :=
  (initially_closed_iteration (transportSetup exBits) exBits exClosedEnv rfl).1 rfl

/-- C6: a read that yields an empty buffer or an undecodable message is
silently discarded: the private bits (sequence counter, identity,
configuration) are unchanged, nothing is written, and the loop continues
with the next iteration from the same state. -/
theorem undecodable_read_discarded (cfg : IOConfig) (bits : PrivateBits)
    (env : IterEnv) (rest : List IterEnv)
    (h2 : env.closed2 = false) (hd : env.dataAvailable = true)
    (hr : env.readResult = ReadOutcome.emptyBuffer ∨
          env.readResult = ReadOutcome.decodeFailure) :
    (loopIteration cfg bits env).bits = bits ∧
    writtenMessages (loopIteration cfg bits env).events = [] ∧
    runLoop cfg bits (env :: rest)
      = ((runLoop cfg bits rest).1,
         (loopIteration cfg bits env).events
           ++ (runLoop cfg bits rest).2) := by
  have hb : (loopIteration cfg bits env).bits = bits ∧
      writtenMessages (loopIteration cfg bits env).events = [] := by
    rcases hr with hr | hr <;> cases hc1 : env.closed1 <;>
      constructor <;>
        simp [loopIteration, h2, hd, hr, hc1, writtenMessages]
  refine ⟨hb.1, hb.2, ?_⟩
  simp only [runLoop]
  rw [hb.1]

/-- C6 witness: a decode failure on the concrete environment leaves the
state unchanged, writes nothing, and the loop proceeds to the next
iteration. -/
theorem undecodable_read_discarded_witness :
    (loopIteration (transportSetup exBits) exBits exReconnectDataEnv).bits
        = exBits ∧
    writtenMessages
        (loopIteration (transportSetup exBits) exBits exReconnectDataEnv).events
      = [] ∧
    runLoop (transportSetup exBits) exBits (exReconnectDataEnv :: [exIdleEnv])
      = ((runLoop (transportSetup exBits) exBits [exIdleEnv]).1,
         (loopIteration (transportSetup exBits) exBits exReconnectDataEnv).events
           ++ (runLoop (transportSetup exBits) exBits [exIdleEnv]).2) :=
  undecodable_read_discarded (transportSetup exBits) exBits exReconnectDataEnv
    [exIdleEnv] rfl rfl (Or.inr rfl)

/-- C7: if the transport reports the connection closed at every check,
every loop iteration makes exactly the calls `openSocket` then `sleep` —
one of each, and never `readMessage` or `writeMessage` (in particular no
heartbeat is sent while disconnected). -/
theorem always_closed_only_open_and_sleep (cfg : IOConfig)
    (bits : PrivateBits) (envs : List IterEnv)
    (h : ∀ e ∈ envs,
        e.closed1 = true ∧ e.closed2 = true ∧ e.closed3 = true) :
    (runLoop cfg bits envs).2
      = (envs.map fun _ => [Event.openSocket, Event.sleep]).flatten := by
  induction envs generalizing bits with
  | nil => simp [runLoop]
  | cons env rest ih =>
    obtain ⟨h1, h2, h3⟩ := h env (List.mem_cons_self env rest)
    have hiter : loopIteration cfg bits env
        = { bits := bits, events := [Event.openSocket, Event.sleep],
            periodic := true } := by
      simp [loopIteration, periodicTasks, h1, h2, h3]
    simp only [runLoop, hiter]
    rw [ih bits (fun e he => h e (List.mem_cons_of_mem env he))]
    simp

/-- C7 witness: two all-closed iterations make exactly the calls
`openSocket`, `sleep`, `openSocket`, `sleep`. -/
theorem always_closed_only_open_and_sleep_witness :
    (runLoop (transportSetup exBits) exBits [exClosedEnv, exClosedEnv]).2
      = ([exClosedEnv, exClosedEnv].map
          fun _ => [Event.openSocket, Event.sleep]).flatten :=
  always_closed_only_open_and_sleep (transportSetup exBits) exBits
    [exClosedEnv, exClosedEnv] (by decide)

/-- C8: `init` reports failure as a boolean, not an exception: it returns
`true` (the failure value) exactly when the configured controller address
cannot be parsed (the thrown exception is caught and converted), `false`
with fully populated private bits otherwise; and the host (modelled from
the spec) does not start the agent when `init` failed. -/
theorem init_boolean_failure (args : AllArgs) :
    ((init args).1 = true ↔ args.controller_addr = none) ∧
    ((init args).1 = false ↔ ∃ bits, (init args).2 = some bits) ∧
    (hostStartAgent args = none ↔ (init args).1 = true) := by
  cases h : args.controller_addr <;>
    simp [init, hostStartAgent, h]

/-- C9: dispatching a decoded message writes at most one message and
never mutates the identity (pci, nPrb, carriers, element id) or the
configured address/port/delay: the resulting private bits equal the old
ones with at most the sequence counter changed. -/
theorem dispatch_frame_condition (bits : PrivateBits)
    (msg : DecodedMessage) :
    (dispatchMessage bits msg).2.length ≤ 1 ∧
    (dispatchMessage bits msg).1
      = { bits with sequence := (dispatchMessage bits msg).1.sequence } := by
  rcases hec : msg.header.entityClass with _ | _ | tag <;>
    constructor <;> simp [dispatchMessage, hec, fillHeader]

/-- Every message written in an iteration whose read poll reported data
carries the capabilities entity class, and the iteration is not a
periodic tick. -/
theorem iter_data_branch_no_hello (cfg : IOConfig) (bits : PrivateBits)
    (env : IterEnv) (h2 : env.closed2 = false)
    (hd : env.dataAvailable = true) :
    (loopIteration cfg bits env).periodic = false ∧
    ∀ m ∈ writtenMessages (loopIteration cfg bits env).events,
      m.header.entityClass = EntityClass.CAPABILITIES_SERVICE := by
  constructor
  · rcases hrr : env.readResult with _ | _ | msg <;>
      simp [loopIteration, h2, hd, hrr]
  · rcases hrr : env.readResult with _ | _ | msg <;>
      cases hc1 : env.closed1 <;>
        simp [loopIteration, h2, hd, hrr, hc1, writtenMessages]
    all_goals
      rcases hec : msg.header.entityClass with _ | _ | tag <;>
        simp [dispatchMessage, hec, fillHeader]

/-- C10: in every iteration whose read poll reports inbound data the
iteration is not a periodic/idle tick and no heartbeat (HELLO request) is
written — even when the message is empty, undecodable or unexpected — so
a run whose every iteration reports data never sends a HELLO request. -/
theorem inbound_data_suppresses_heartbeat (cfg : IOConfig)
    (bits : PrivateBits) (env : IterEnv) (envs : List IterEnv)
    (h2 : env.closed2 = false) (hd : env.dataAvailable = true)
    (hall : ∀ e ∈ envs, e.closed2 = false ∧ e.dataAvailable = true) :
    (loopIteration cfg bits env).periodic = false ∧
    (∀ m ∈ writtenMessages (loopIteration cfg bits env).events,
       m.header.entityClass = EntityClass.CAPABILITIES_SERVICE) ∧
    (∀ m ∈ writtenMessages (runLoop cfg bits envs).2,
       m.header.entityClass ≠ EntityClass.HELLO_SERVICE) := by
  refine ⟨(iter_data_branch_no_hello cfg bits env h2 hd).1,
          (iter_data_branch_no_hello cfg bits env h2 hd).2, ?_⟩
  induction envs generalizing bits with
  | nil => simp [runLoop, writtenMessages]
  | cons e rest ih =>
    obtain ⟨he2, hed⟩ := hall e (List.mem_cons_self e rest)
    intro m hm
    simp only [runLoop] at hm
    rw [writtenMessages_append] at hm
    rcases List.mem_append.mp hm with hm | hm
    · have := (iter_data_branch_no_hello cfg bits e he2 hed).2 m hm
      rw [this]
      intro hcontra
      exact EntityClass.noConfusion hcontra
    · exact ih (loopIteration cfg bits e).bits
        (fun e' he' => hall e' (List.mem_cons_of_mem e he')) m hm

/-- C10 witness: an iteration receiving an undecodable message is not an
idle tick and sends nothing with the HELLO entity class, and a run of two
such iterations writes no HELLO request. -/
theorem inbound_data_suppresses_heartbeat_witness :
    (loopIteration (transportSetup exBits) exBits exReconnectDataEnv).periodic
        = false ∧
    (∀ m ∈ writtenMessages
        (loopIteration (transportSetup exBits) exBits exReconnectDataEnv).events,
       m.header.entityClass = EntityClass.CAPABILITIES_SERVICE) ∧
    (∀ m ∈ writtenMessages
        (runLoop (transportSetup exBits) exBits
          [exReconnectDataEnv, exReconnectDataEnv]).2,
       m.header.entityClass ≠ EntityClass.HELLO_SERVICE) :=
  inbound_data_suppresses_heartbeat (transportSetup exBits) exBits
    exReconnectDataEnv [exReconnectDataEnv, exReconnectDataEnv]
    rfl rfl (by decide)

end Agent

end Empower
